import Mathlib

/-!
Verification development for the pomodoro-todo repository.

The file shallowly embeds the two core components of the program:

* `src/core/pomodoro.py` — the `PomodoroTimer` state machine (states, the
  tick-driven countdown, pause/resume/reset, the completed-work-session
  counter, and the tick / state-change callbacks, modelled as an explicit
  list of emitted notifications);
* `src/core/database.py` — the SQLite-backed `Database` (the `pomodoros`,
  `tasks` and `settings` tables modelled as in-memory lists, `AUTOINCREMENT`
  ids as an explicit next-id counter, and the `PRAGMA foreign_keys = ON`
  foreign-key constraint on `pomodoros.task_id` modelled as an explicit
  check that makes the insert fail, as SQLite does).

Machine integers are modelled as `Nat`: every counter in the source is
non-negative and only ever incremented/decremented under a positivity
guard, and SQLite ids start at 1 and grow. Timestamps (`datetime.now()`,
the SQLite `DATETIME` column and the `DATE(...)` extraction) are modelled
abstractly as a pair of a local calendar date and a time-of-day, both `Nat`.
-/

namespace PomodoroTodo

/-! Timer state machine, from `src/core/pomodoro.py`. -/

/-- The five states of `PomodoroState` (pomodoro.py lines 9-15). -/
inductive PomodoroState where
  | idle
  | working
  | shortBreak
  | longBreak
  | paused
deriving DecidableEq, Repr

/-- One synchronous callback invocation: `on_tick(remaining)` or
`on_state_change(state)` (pomodoro.py lines 26-35). -/
inductive Notification where
  | tickNote (remaining : Nat)
  | stateChange (s : PomodoroState)
deriving DecidableEq, Repr

/-- The mutable fields of a `PomodoroTimer` instance. The three duration
fields model `WORK_DURATION` / `SHORT_BREAK_DURATION` /
`LONG_BREAK_DURATION`: class constants (25*60 / 5*60 / 15*60) that the UI
overwrites as instance attributes right before each `start_*` call. -/
structure PomodoroTimer where
  workDuration : Nat
  shortBreakDuration : Nat
  longBreakDuration : Nat
  state : PomodoroState
  remainingSeconds : Nat
  elapsedSeconds : Nat
  startTime : Option Nat
  workSessions : Nat
deriving DecidableEq, Repr

/-- `PomodoroTimer.__init__` (pomodoro.py lines 26-41): idle, remaining =
`WORK_DURATION` = 1500, elapsed 0, no start time, zero sessions. -/
def PomodoroTimer.init : PomodoroTimer where
  workDuration := 25 * 60
  shortBreakDuration := 5 * 60
  longBreakDuration := 15 * 60
  state := PomodoroState.idle
  remainingSeconds := 25 * 60
  elapsedSeconds := 0
  startTime := none
  workSessions := 0

/-- The membership test `state in (WORKING, SHORT_BREAK, LONG_BREAK)` used
by `pause` and `tick`. -/
def isRunning : PomodoroState → Bool
  | PomodoroState.working => true
  | PomodoroState.shortBreak => true
  | PomodoroState.longBreak => true
  | _ => false

/-- `start_work` (pomodoro.py lines 63-69). `now` is the value of
`datetime.now()` at the call. -/
def start_work (now : Nat) (t : PomodoroTimer) : PomodoroTimer × List Notification :=
  ({t with state := PomodoroState.working,
           remainingSeconds := t.workDuration,
           elapsedSeconds := 0,
           startTime := some now},
   [Notification.stateChange PomodoroState.working])

/-- `start_short_break` (pomodoro.py lines 71-76); `_start_time` untouched. -/
def start_short_break (t : PomodoroTimer) : PomodoroTimer × List Notification :=
  ({t with state := PomodoroState.shortBreak,
           remainingSeconds := t.shortBreakDuration,
           elapsedSeconds := 0},
   [Notification.stateChange PomodoroState.shortBreak])

/-- `start_long_break` (pomodoro.py lines 78-83); `_start_time` untouched. -/
def start_long_break (t : PomodoroTimer) : PomodoroTimer × List Notification :=
  ({t with state := PomodoroState.longBreak,
           remainingSeconds := t.longBreakDuration,
           elapsedSeconds := 0},
   [Notification.stateChange PomodoroState.longBreak])

/-- `pause` (pomodoro.py lines 85-89): transition to `PAUSED` only from a
running state, otherwise silently do nothing. -/
def pause (t : PomodoroTimer) : PomodoroTimer × List Notification :=
  if isRunning t.state then
    ({t with state := PomodoroState.paused},
     [Notification.stateChange PomodoroState.paused])
  else (t, [])

/-- `resume` (pomodoro.py lines 91-100): only from `PAUSED`; when
`elapsed < remaining` the target running state is re-derived by the
threshold chain `remaining <= WORK_DURATION` then
`remaining <= SHORT_BREAK_DURATION`, otherwise `IDLE`. -/
def resume (t : PomodoroTimer) : PomodoroTimer × List Notification :=
  if t.state = PomodoroState.paused then
    let s :=
      if t.elapsedSeconds < t.remainingSeconds then
        if t.remainingSeconds ≤ t.workDuration then PomodoroState.working
        else if t.remainingSeconds ≤ t.shortBreakDuration then PomodoroState.shortBreak
        else PomodoroState.longBreak
      else PomodoroState.idle
    ({t with state := s}, [Notification.stateChange s])
  else (t, [])

/-- `reset` (pomodoro.py lines 102-108): unconditionally idle, remaining =
`WORK_DURATION`, elapsed 0, start time cleared, notification fired. -/
def reset (t : PomodoroTimer) : PomodoroTimer × List Notification :=
  ({t with state := PomodoroState.idle,
           remainingSeconds := t.workDuration,
           elapsedSeconds := 0,
           startTime := none},
   [Notification.stateChange PomodoroState.idle])

/-- `tick` (pomodoro.py lines 110-129). Returns the new timer, the boolean
result (`True` = completed), and the notifications fired during the call. -/
def tick (t : PomodoroTimer) : PomodoroTimer × Bool × List Notification :=
  if isRunning t.state then
    if 0 < t.remainingSeconds then
      ({t with remainingSeconds := t.remainingSeconds - 1,
               elapsedSeconds := t.elapsedSeconds + 1},
       false, [Notification.tickNote (t.remainingSeconds - 1)])
    else
      if t.state = PomodoroState.working then
        ({t with workSessions := t.workSessions + 1}, true, [])
      else (t, true, [])
  else (t, false, [])

/-- `get_duration` (pomodoro.py lines 131-139). -/
def get_duration (t : PomodoroTimer) : Nat :=
  match t.state with
  | PomodoroState.working => t.workDuration
  | PomodoroState.shortBreak => t.shortBreakDuration
  | PomodoroState.longBreak => t.longBreakDuration
  | _ => t.workDuration

/-- `get_start_time` (pomodoro.py lines 145-147). -/
def get_start_time (t : PomodoroTimer) : Option Nat :=
  t.startTime

/-- Starting a work session with a configured duration, as the UI does
(pomodoro_widget.py lines 267-269): assign `WORK_DURATION = d`, then call
`start_work()`. -/
def startWorkCfg (d now : Nat) (t : PomodoroTimer) : PomodoroTimer :=
  (start_work now {t with workDuration := d}).1

/-- Starting a short break with a configured duration
(pomodoro_widget.py lines 271-273). -/
def startShortBreakCfg (d : Nat) (t : PomodoroTimer) : PomodoroTimer :=
  (start_short_break {t with shortBreakDuration := d}).1

/-- Starting a long break with a configured duration
(pomodoro_widget.py lines 275-277). -/
def startLongBreakCfg (d : Nat) (t : PomodoroTimer) : PomodoroTimer :=
  (start_long_break {t with longBreakDuration := d}).1

/-- The public operations a caller can perform on the engine, durations
configured at start time exactly as the UI does. -/
inductive Op where
  | startWork (d now : Nat)
  | startShortBreak (d : Nat)
  | startLongBreak (d : Nat)
  | pause
  | resume
  | reset
  | tick
deriving DecidableEq, Repr

/-- State transition of one operation (notification output dropped). -/
def applyOp (op : Op) (t : PomodoroTimer) : PomodoroTimer :=
  match op with
  | Op.startWork d now => startWorkCfg d now t
  | Op.startShortBreak d => startShortBreakCfg d t
  | Op.startLongBreak d => startLongBreakCfg d t
  | Op.pause => (pause t).1
  | Op.resume => (resume t).1
  | Op.reset => (reset t).1
  | Op.tick => (tick t).1

/-- Run a sequence of operations from a given timer. -/
def runFrom (t : PomodoroTimer) (ops : List Op) : PomodoroTimer :=
  ops.foldl (fun s op => applyOp op s) t

/-- Run a sequence of operations from the freshly constructed timer. -/
def run (ops : List Op) : PomodoroTimer :=
  runFrom PomodoroTimer.init ops

/-- Apply `tick` repeatedly, keeping only the timer state. -/
def ticksFst : Nat → PomodoroTimer → PomodoroTimer
  | 0, t => t
  | n + 1, t => ticksFst n (tick t).1

/-! Session store, from `src/core/database.py`. A timestamp carries the
local calendar date (what SQLite's `DATE(start_time)` extracts, in
`localtime`) and a time of day. -/

/-- An abstract timestamp: local calendar date plus time of day. -/
structure Timestamp where
  date : Nat
  tod : Nat
deriving DecidableEq, Repr

/-- A row of the `tasks` table (database.py lines 32-42). -/
structure TaskRow where
  id : Nat
  title : String
  descr : String
  priority : Int
  status : Int
deriving DecidableEq, Repr

/-- A row of the `pomodoros` table (database.py lines 44-54): `task_id` is
nullable and declared `FOREIGN KEY ... REFERENCES tasks(id)`. -/
structure PomodoroRow where
  id : Nat
  taskId : Option Nat
  duration : Nat
  startTime : Timestamp
  endTime : Timestamp
deriving DecidableEq, Repr

/-- The database contents: the three tables plus the next `AUTOINCREMENT`
id of each id-bearing table (`lastrowid` of an insert). -/
structure Database where
  tasks : List TaskRow
  pomodoros : List PomodoroRow
  settings : List (String × String)
  nextTaskId : Nat
  nextPomodoroId : Nat
deriving DecidableEq, Repr

/-- A fresh database, as `_init_db` creates it (database.py lines 26-65):
three empty tables; SQLite row ids start at 1. -/
def Database.init : Database where
  tasks := []
  pomodoros := []
  settings := []
  nextTaskId := 1
  nextPomodoroId := 1

/-- The storage-layer failure an insert can raise
(`sqlite3.IntegrityError` on a foreign-key violation). -/
inductive DbError where
  | integrityError
deriving DecidableEq, Repr

/-- The foreign-key check SQLite performs on `pomodoros.task_id`:
`_get_connection` (database.py lines 19-24) executes
`PRAGMA foreign_keys = ON` on every connection, and the `pomodoros` table
declares `FOREIGN KEY (task_id) REFERENCES tasks(id)`, so a non-null
`task_id` must match an existing task id; `NULL` always passes. -/
def fkOk (db : Database) (taskId : Option Nat) : Bool :=
  match taskId with
  | none => true
  | some tid => db.tasks.any (fun task => task.id == tid)

/-- `create_task` (database.py lines 68-79): insert a task row, return its
assigned id. -/
def create_task (db : Database) (title descr : String) (priority : Int) :
    Database × Nat :=
  ({db with
      tasks := db.tasks ++
        [{ id := db.nextTaskId, title := title, descr := descr,
           priority := priority, status := 0 }],
      nextTaskId := db.nextTaskId + 1},
   db.nextTaskId)

/-- `create_pomodoro` (database.py lines 129-140): insert one row into
`pomodoros` and return `lastrowid`; the insert raises `IntegrityError`
when the enabled foreign-key constraint on `task_id` is violated. -/
def create_pomodoro (db : Database) (taskId : Option Nat) (duration : Nat)
    (startTime endTime : Timestamp) : Except DbError (Database × Nat) :=
  if fkOk db taskId then
    Except.ok
      ({db with
          pomodoros := db.pomodoros ++
            [{ id := db.nextPomodoroId, taskId := taskId, duration := duration,
               startTime := startTime, endTime := endTime }],
          nextPomodoroId := db.nextPomodoroId + 1},
       db.nextPomodoroId)
  else Except.error DbError.integrityError

/-- `delete_pomodoro` (database.py lines 171-177): `DELETE FROM pomodoros
WHERE id = ?` keeps exactly the rows whose id differs. -/
def delete_pomodoro (db : Database) (pomodoroId : Nat) : Database :=
  {db with pomodoros := db.pomodoros.filter (fun row => row.id != pomodoroId)}

/-- `SUM(duration)` over a set of rows: SQLite's `SUM` returns `NULL` on an
empty set, which `get_pomodoro_stats` turns into 0 via `or 0`. -/
def sqlSumDuration (rows : List PomodoroRow) : Option Nat :=
  match rows with
  | [] => none
  | _ => some (rows.foldl (fun acc row => acc + row.duration) 0)

/-- The record returned by `get_pomodoro_stats`. -/
structure PomodoroStats where
  today_count : Nat
  today_duration : Nat
  all_time_duration : Nat
deriving DecidableEq, Repr

/-- `get_pomodoro_stats` (database.py lines 180-206). `today` is the local
calendar date `DATE('now', 'localtime')` at query time; the today filter
is `DATE(start_time) = DATE('now', 'localtime')`. -/
def get_pomodoro_stats (db : Database) (today : Nat) : PomodoroStats :=
  let todayRows := db.pomodoros.filter (fun row => row.startTime.date == today)
  { today_count := todayRows.length
    today_duration := (sqlSumDuration todayRows).getD 0
    all_time_duration := (sqlSumDuration db.pomodoros).getD 0 }

/-- `get_setting` (database.py lines 209-216): the value of the first (and,
`key` being the primary key, only) matching row, else the caller-supplied
default (`default: str = None`, hence an `Option`). -/
def get_setting (db : Database) (key : String) (dflt : Option String) :
    Option String :=
  match db.settings.find? (fun kv => kv.1 == key) with
  | some kv => some kv.2
  | none => dflt

/-! Invariants and helper lemmas. -/

/-- The spec's running-state invariant: while the state is running,
`elapsedSeconds + remainingSeconds` equals the configured duration of the
current state as returned by `get_duration`. -/
def runningInvariant (t : PomodoroTimer) : Prop :=
  isRunning t.state = true → t.elapsedSeconds + t.remainingSeconds = get_duration t

/-- Ticking a running timer with time left decrements remaining, increments
elapsed, and changes nothing else. -/
theorem tick_running_pos (t : PomodoroTimer) (hrun : isRunning t.state = true)
    (hr : 0 < t.remainingSeconds) :
    tick t = ({t with remainingSeconds := t.remainingSeconds - 1,
                      elapsedSeconds := t.elapsedSeconds + 1},
              false, [Notification.tickNote (t.remainingSeconds - 1)]) := by
  simp [tick, hrun, hr]

/-- Field-level description of `j` consecutive ticks of a running timer with
at least `j` seconds remaining: remaining decreases by `j`, elapsed grows by
`j`, and the state and session counter are untouched. -/
theorem ticksFst_spec (j : Nat) (t : PomodoroTimer)
    (hrun : isRunning t.state = true) (hj : j ≤ t.remainingSeconds) :
    (ticksFst j t).remainingSeconds = t.remainingSeconds - j ∧
    (ticksFst j t).elapsedSeconds = t.elapsedSeconds + j ∧
    (ticksFst j t).state = t.state ∧
    (ticksFst j t).workSessions = t.workSessions := by
  induction j generalizing t with
  | zero => simp [ticksFst]
  | succ n ih =>
    have hr : 0 < t.remainingSeconds := by omega
    have h1 : (tick t).1 = {t with remainingSeconds := t.remainingSeconds - 1,
                                   elapsedSeconds := t.elapsedSeconds + 1} := by
      rw [tick_running_pos t hrun hr]
    have ih2 := ih (tick t).1 (by rw [h1]; exact hrun) (by rw [h1]; simp; omega)
    rw [h1] at ih2
    simp only [ticksFst, h1]
    simp only [] at ih2
    refine ⟨?_, ?_, ?_, ?_⟩
    · rw [ih2.1]; omega
    · rw [ih2.2.1]; omega
    · rw [ih2.2.2.1]
    · rw [ih2.2.2.2]

/-! Claim theorems. -/

/-- Claim C1, counterexample to the claim as stated: with configured work
duration d = 1, the d-th (first) `tick` call returns `False` even though it
leaves `remainingSeconds == 0`; completion (`True`) is only reported on the
following call. The claim says completion is reported on the d-th call. -/
theorem c1_claim_counterexample :
    (tick (startWorkCfg 1 0 PomodoroTimer.init)).2.1 = false ∧
    (ticksFst 1 (startWorkCfg 1 0 PomodoroTimer.init)).remainingSeconds = 0 ∧
    (tick (ticksFst 1 (startWorkCfg 1 0 PomodoroTimer.init))).2.1 = true := by
  decide

/-- Claim C1, amended: for every configured work duration d ≥ 1, after
`startWork` with duration d, each of the first d `tick` calls returns
not-completed; after the d-th call `remainingSeconds == 0` and
`elapsedSeconds == d`; completion is reported on the (d+1)-th call — the
first call made with `remainingSeconds == 0` — not on the d-th call. -/
theorem c1_tick_countdown (d now : Nat) (t : PomodoroTimer) (_hd : 1 ≤ d) :
    (∀ j, j < d → (tick (ticksFst j (startWorkCfg d now t))).2.1 = false) ∧
    (ticksFst d (startWorkCfg d now t)).remainingSeconds = 0 ∧
    (ticksFst d (startWorkCfg d now t)).elapsedSeconds = d ∧
    (tick (ticksFst d (startWorkCfg d now t))).2.1 = true := by
  have hstate : (startWorkCfg d now t).state = PomodoroState.working := rfl
  have hrun : isRunning (startWorkCfg d now t).state = true := rfl
  have hrem : (startWorkCfg d now t).remainingSeconds = d := rfl
  have hela : (startWorkCfg d now t).elapsedSeconds = 0 := rfl
  refine ⟨?_, ?_, ?_, ?_⟩
  · intro j hj
    have hspec := ticksFst_spec j (startWorkCfg d now t) hrun (by omega)
    have hrunj : isRunning (ticksFst j (startWorkCfg d now t)).state = true := by
      rw [hspec.2.2.1]; exact hrun
    have hpos : 0 < (ticksFst j (startWorkCfg d now t)).remainingSeconds := by
      rw [hspec.1, hrem]; omega
    rw [tick_running_pos _ hrunj hpos]
  · have hspec := ticksFst_spec d (startWorkCfg d now t) hrun (by omega)
    rw [hspec.1, hrem]; omega
  · have hspec := ticksFst_spec d (startWorkCfg d now t) hrun (by omega)
    rw [hspec.2.1, hela]; omega
  · have hspec := ticksFst_spec d (startWorkCfg d now t) hrun (by omega)
    have hz : (ticksFst d (startWorkCfg d now t)).remainingSeconds = 0 := by
      rw [hspec.1, hrem]; omega
    have hw : (ticksFst d (startWorkCfg d now t)).state = PomodoroState.working := by
      rw [hspec.2.2.1]; exact hstate
    simp [tick, hw, hz, isRunning]

/-- Claim C1 witness at d = 2. -/
theorem c1_tick_countdown_witness :
    (tick (startWorkCfg 2 0 PomodoroTimer.init)).2.1 = false ∧
    (ticksFst 2 (startWorkCfg 2 0 PomodoroTimer.init)).remainingSeconds = 0 ∧
    (ticksFst 2 (startWorkCfg 2 0 PomodoroTimer.init)).elapsedSeconds = 2 ∧
    (tick (ticksFst 2 (startWorkCfg 2 0 PomodoroTimer.init))).2.1 = true := by
  have h := c1_tick_countdown 2 0 PomodoroTimer.init (by decide)
  exact ⟨h.1 0 (by decide), h.2.1, h.2.2.1, h.2.2.2⟩

/-- Claim C3, counterexample to the claim as stated: the sequence
`startWork(1)` then three ticks contains a single Working interval, yet
`completedWorkSessions` rises by 2 — each `tick` made while Working with
`remainingSeconds == 0` increments the counter again. -/
theorem c3_claim_counterexample :
    (run [Op.startWork 1 0, Op.tick, Op.tick, Op.tick]).workSessions = 2 := by
  decide

/-- Claim C3, amended: `workSessions` is monotonically non-decreasing across
every operation, and a single `tick` call increments it by exactly 1 when
the state is Working with `remainingSeconds == 0` and by 0 in every other
case (in particular break completions add 0); however, because completion
ticks do not leave the Working state, repeated ticks after one Working
interval completes each increment the counter again, so a sequence with a
single Working interval can increase it by more than 1. -/
theorem c3_work_sessions (op : Op) (t : PomodoroTimer) :
    t.workSessions ≤ (applyOp op t).workSessions ∧
    (tick t).1.workSessions =
      t.workSessions +
        (if t.state = PomodoroState.working ∧ t.remainingSeconds = 0
         then 1 else 0) := by
  constructor
  · cases op <;>
      simp [applyOp, startWorkCfg, startShortBreakCfg, startLongBreakCfg,
        start_work, start_short_break, start_long_break, pause, resume, reset,
        tick] <;>
      split_ifs <;> simp
  · cases hs : t.state <;> cases hr : t.remainingSeconds <;>
      simp [tick, isRunning, hs, hr]

/-- Claim C5: `resume()` is a strict no-op from any non-Paused state; from
Paused with `elapsedSeconds < remainingSeconds` it preserves both counters
and moves to the running state picked by the threshold chain (never Idle);
from Paused with `elapsedSeconds >= remainingSeconds` it moves to Idle. -/
theorem c5_resume_spec (t : PomodoroTimer) :
    (t.state ≠ PomodoroState.paused → resume t = (t, [])) ∧
    (t.state = PomodoroState.paused →
      ((t.elapsedSeconds < t.remainingSeconds →
         (resume t).1.remainingSeconds = t.remainingSeconds ∧
         (resume t).1.elapsedSeconds = t.elapsedSeconds ∧
         isRunning (resume t).1.state = true ∧
         (resume t).1.state ≠ PomodoroState.idle ∧
         (resume t).1.state =
           (if t.remainingSeconds ≤ t.workDuration then PomodoroState.working
            else if t.remainingSeconds ≤ t.shortBreakDuration then
              PomodoroState.shortBreak
            else PomodoroState.longBreak)) ∧
       (t.remainingSeconds ≤ t.elapsedSeconds →
         (resume t).1.state = PomodoroState.idle))) := by
  constructor
  · intro h
    simp [resume, h]
  · intro hp
    constructor
    · intro hlt
      have hnot : ¬ t.remainingSeconds ≤ t.elapsedSeconds := by omega
      simp only [resume, hp, if_pos rfl, if_pos hlt]
      split_ifs <;> simp [isRunning]
    · intro hge
      have hnot : ¬ t.elapsedSeconds < t.remainingSeconds := by omega
      simp [resume, hp, hnot]

/-- Claim C5 witness: a timer paused at 100 seconds remaining and 5 elapsed
resumes with both counters intact and in a running, non-Idle state. -/
theorem c5_resume_spec_witness :
    (resume
        { PomodoroTimer.init with
            state := PomodoroState.paused
            remainingSeconds := 100
            elapsedSeconds := 5 }).1.remainingSeconds = 100 ∧
    isRunning
        (resume
          { PomodoroTimer.init with
              state := PomodoroState.paused
              remainingSeconds := 100
              elapsedSeconds := 5 }).1.state = true := by
  have h := (c5_resume_spec
    { PomodoroTimer.init with
        state := PomodoroState.paused
        remainingSeconds := 100
        elapsedSeconds := 5 }).2 rfl
  exact ⟨(h.1 (by decide)).1, (h.1 (by decide)).2.2.1⟩

/-- Claim C6: `reset()` from every state yields Idle, restores
`remainingSeconds` to the work duration (1500 on a default-configured
timer, never 0 there), zeroes `elapsedSeconds`, clears `startTime` to
`none`, and unconditionally fires exactly one state-change notification. -/
theorem c6_reset_spec (t : PomodoroTimer) :
    (reset t).1.state = PomodoroState.idle ∧
    (reset t).1.remainingSeconds = t.workDuration ∧
    (reset PomodoroTimer.init).1.remainingSeconds = 25 * 60 ∧
    (reset t).1.elapsedSeconds = 0 ∧
    (reset t).1.startTime = none ∧
    (reset t).2 = [Notification.stateChange PomodoroState.idle] :=
  ⟨rfl, rfl, rfl, rfl, rfl, rfl⟩

/-- Claim C9: whenever the short-break duration does not exceed the work
duration — as with the defaults 300 and 1500 — `resume()` from Paused can
never land in ShortBreak, because the chain tests
`remaining <= WORK_DURATION` first; and every Paused state with
`elapsed < remaining` and `remaining <= WORK_DURATION` resumes to Working,
even if the pause happened during a break. -/
theorem c9_resume_no_short_break (t : PomodoroTimer)
    (hd : t.shortBreakDuration ≤ t.workDuration)
    (hp : t.state = PomodoroState.paused) :
    (resume t).1.state ≠ PomodoroState.shortBreak ∧
    (t.elapsedSeconds < t.remainingSeconds → t.remainingSeconds ≤ t.workDuration →
      (resume t).1.state = PomodoroState.working) := by
  constructor
  · simp only [resume, hp, if_pos rfl]
    split_ifs <;> simp_all <;> omega
  · intro hlt hle
    simp [resume, hp, hlt, hle]

/-- Claim C9 witness: a timer paused mid long break (remaining 900 of the
default 900) resumes straight to Working. -/
theorem c9_resume_no_short_break_witness :
    (resume
        { PomodoroTimer.init with
            state := PomodoroState.paused
            remainingSeconds := 900
            elapsedSeconds := 0 }).1.state = PomodoroState.working := by
  have h := c9_resume_no_short_break
    { PomodoroTimer.init with
        state := PomodoroState.paused
        remainingSeconds := 900
        elapsedSeconds := 0 } (by decide) rfl
  exact h.2 (by decide) (by decide)

/-- Claim C10: the two break starters leave `startTime` unchanged (so during
a break `get_start_time` still reports the last `start_work` capture);
`start_work` is the only operation that sets it and `reset` the only one
that clears it; `pause`, `resume` and `tick` never touch it. -/
theorem c10_start_time_frame (t : PomodoroTimer) (d now : Nat) :
    (start_short_break t).1.startTime = t.startTime ∧
    (start_long_break t).1.startTime = t.startTime ∧
    (startShortBreakCfg d t).startTime = t.startTime ∧
    (startLongBreakCfg d t).startTime = t.startTime ∧
    (start_work now t).1.startTime = some now ∧
    (startWorkCfg d now t).startTime = some now ∧
    (reset t).1.startTime = none ∧
    (pause t).1.startTime = t.startTime ∧
    (resume t).1.startTime = t.startTime ∧
    (tick t).1.startTime = t.startTime ∧
    get_start_time t = t.startTime := by
  refine ⟨rfl, rfl, rfl, rfl, rfl, rfl, rfl, ?_, ?_, ?_, rfl⟩
  · unfold pause; split <;> rfl
  · unfold resume; split <;> rfl
  · unfold tick; split
    · split
      · rfl
      · split <;> rfl
    · rfl

/-- Every operation other than `resume` preserves the running-state
invariant `elapsed + remaining = get_duration`. -/
theorem applyOp_preserves_runningInvariant (op : Op) (t : PomodoroTimer)
    (hop : op ≠ Op.resume) (h : runningInvariant t) :
    runningInvariant (applyOp op t) := by
  cases op with
  | startWork d now =>
      intro _
      simp [applyOp, startWorkCfg, start_work, get_duration]
  | startShortBreak d =>
      intro _
      simp [applyOp, startShortBreakCfg, start_short_break, get_duration]
  | startLongBreak d =>
      intro _
      simp [applyOp, startLongBreakCfg, start_long_break, get_duration]
  | pause =>
      intro hrun
      by_cases hr : isRunning t.state = true
      · have hp : (pause t).1 = {t with state := PomodoroState.paused} := by
          simp [pause, hr]
        rw [show applyOp Op.pause t = (pause t).1 from rfl, hp] at hrun
        simp [isRunning] at hrun
      · have hp : (pause t).1 = t := by simp [pause, hr]
        rw [show applyOp Op.pause t = (pause t).1 from rfl, hp] at hrun ⊢
        exact h hrun
  | resume => exact absurd rfl hop
  | reset =>
      intro hrun
      simp [applyOp, reset, isRunning] at hrun
  | tick =>
      intro hrun
      by_cases hr : isRunning t.state = true
      · by_cases hz : 0 < t.remainingSeconds
        · rw [show applyOp Op.tick t = (tick t).1 from rfl,
            tick_running_pos t hr hz] at hrun ⊢
          have hdur : get_duration {t with
              remainingSeconds := t.remainingSeconds - 1,
              elapsedSeconds := t.elapsedSeconds + 1} = get_duration t := rfl
          rw [hdur]
          have := h hr
          simp only []
          omega
        · have hz0 : t.remainingSeconds = 0 := by omega
          by_cases hw : t.state = PomodoroState.working
          · have ht : (tick t).1 = {t with workSessions := t.workSessions + 1} := by
              simp [tick, hr, hz0, hw, isRunning]
            rw [show applyOp Op.tick t = (tick t).1 from rfl, ht] at hrun ⊢
            have hdur : get_duration {t with workSessions := t.workSessions + 1} =
                get_duration t := rfl
            rw [hdur]
            exact h (by exact hrun)
          · have ht : (tick t).1 = t := by
              simp [tick, hr, hz0, hw]
            rw [show applyOp Op.tick t = (tick t).1 from rfl, ht] at hrun ⊢
            exact h hrun
      · have ht : (tick t).1 = t := by simp [tick, hr]
        rw [show applyOp Op.tick t = (tick t).1 from rfl, ht] at hrun ⊢
        exact h hrun

/-- A resume-free operation sequence keeps the running-state invariant. -/
theorem runFrom_no_resume_invariant (ops : List Op) (t : PomodoroTimer)
    (hops : ∀ op ∈ ops, op ≠ Op.resume) (h : runningInvariant t) :
    runningInvariant (runFrom t ops) := by
  induction ops generalizing t with
  | nil => exact h
  | cons op rest ih =>
      exact ih (applyOp op t)
        (fun o ho => hops o (List.mem_cons_of_mem op ho))
        (applyOp_preserves_runningInvariant op t
          (hops op (List.mem_cons_self op rest)) h)

/-- Claim C4, counterexample to the claim as stated: starting a 300-second
short break, pausing and resuming reaches a running state (`resume`
re-labels it Working) in which `elapsedSeconds + remainingSeconds = 300`
but `get_duration` returns the 1500-second work duration, so the invariant
fails on a state reached via pause() followed by resume(). -/
theorem c4_claim_counterexample :
    isRunning (run [Op.startShortBreak 300, Op.pause, Op.resume]).state = true ∧
    (run [Op.startShortBreak 300, Op.pause, Op.resume]).elapsedSeconds +
        (run [Op.startShortBreak 300, Op.pause, Op.resume]).remainingSeconds ≠
      get_duration (run [Op.startShortBreak 300, Op.pause, Op.resume]) := by
  decide

/-- Claim C4, amended: the invariant `elapsedSeconds + remainingSeconds ==
get_duration` holds in every reachable running state of any operation
sequence that contains no `resume`; `resume` can break it, because the
threshold chain may re-label a paused break as Working, after which
`get_duration` reports the work duration while the counters still sum to
the break duration. -/
theorem c4_invariant_no_resume (ops : List Op)
    (hops : ∀ op ∈ ops, op ≠ Op.resume) :
    runningInvariant (run ops) :=
  runFrom_no_resume_invariant ops PomodoroTimer.init hops
    (fun hrun => by simp [PomodoroTimer.init, isRunning] at hrun)

/-- Claim C4 witness: a resume-free sequence that starts a 10-second work
session and ticks once satisfies the invariant. -/
theorem c4_invariant_no_resume_witness :
    runningInvariant (run [Op.startWork 10 0, Op.tick]) :=
  c4_invariant_no_resume [Op.startWork 10 0, Op.tick] (by decide)

/-- Claim C2, counterexample to the claim as stated: on a fresh database
(no tasks), `create_pomodoro` with `task_id = 1` fails with an integrity
error — every connection runs `PRAGMA foreign_keys = ON` and the
`pomodoros` table declares `FOREIGN KEY (task_id) REFERENCES tasks(id)`,
so the insert does fail when the given task id matches no existing task. -/
theorem c2_claim_counterexample :
    create_pomodoro Database.init (some 1) 60 ⟨0, 0⟩ ⟨0, 0⟩ =
      Except.error DbError.integrityError := rfl

/-- Claim C2, amended: `create_pomodoro` inserts exactly one row and
returns the assigned id whenever `task_id` is NULL or matches an existing
task — in particular a NULL `task_id` is always accepted; but a non-NULL
`task_id` with no matching task makes the insert fail with an
IntegrityError, because the schema's foreign key is enforced on every
connection. -/
theorem c2_record_interval (db : Database) (taskId : Option Nat)
    (duration : Nat) (startTime endTime : Timestamp)
    (hfk : fkOk db taskId = true) :
    create_pomodoro db taskId duration startTime endTime =
      Except.ok
        ({db with
            pomodoros := db.pomodoros ++
              [{ id := db.nextPomodoroId
                 taskId := taskId
                 duration := duration
                 startTime := startTime
                 endTime := endTime }]
            nextPomodoroId := db.nextPomodoroId + 1},
         db.nextPomodoroId) ∧
    fkOk db none = true := by
  constructor
  · simp [create_pomodoro, hfk]
  · rfl

/-- Claim C2 witness: recording a task-less interval on a fresh database
succeeds and returns id 1. -/
theorem c2_record_interval_witness :
    create_pomodoro Database.init none 60 ⟨0, 0⟩ ⟨0, 0⟩ =
      Except.ok
        ({Database.init with
            pomodoros := [{ id := 1
                            taskId := none
                            duration := 60
                            startTime := ⟨0, 0⟩
                            endTime := ⟨0, 0⟩ }]
            nextPomodoroId := 2},
         1) := by
  have h := c2_record_interval Database.init none 60 ⟨0, 0⟩ ⟨0, 0⟩ (by decide)
  exact h.1

/-- Folding addition of durations over rows equals the sum of the mapped
durations. -/
theorem foldl_add_duration (rows : List PomodoroRow) (acc : Nat) :
    rows.foldl (fun a row => a + row.duration) acc =
      acc + (rows.map (fun row => row.duration)).sum := by
  induction rows generalizing acc with
  | nil => simp
  | cons r rest ih =>
      simp only [List.foldl_cons, List.map_cons, List.sum_cons, ih]
      omega

/-- SQLite's `SUM(duration)` with the `NULL`-to-0 coercion applied equals
the plain sum of the durations; on no rows it is 0. -/
theorem sqlSumDuration_getD (rows : List PomodoroRow) :
    (sqlSumDuration rows).getD 0 = (rows.map (fun row => row.duration)).sum := by
  cases rows with
  | nil => rfl
  | cons r rest =>
      simp [sqlSumDuration, foldl_add_duration]

/-- Claim C7: for every store contents and query-time local date,
`get_pomodoro_stats` returns the count of intervals whose start date is
that date, the sum of those intervals' durations (0 when there are none),
and the sum of all intervals' durations (0 when the store is empty). -/
theorem c7_statistics_spec (db : Database) (today : Nat) :
    (get_pomodoro_stats db today).today_count =
      (db.pomodoros.filter (fun row => row.startTime.date == today)).length ∧
    (get_pomodoro_stats db today).today_duration =
      ((db.pomodoros.filter (fun row => row.startTime.date == today)).map
          (fun row => row.duration)).sum ∧
    (get_pomodoro_stats db today).all_time_duration =
      (db.pomodoros.map (fun row => row.duration)).sum := by
  refine ⟨rfl, ?_, ?_⟩ <;>
    simp [get_pomodoro_stats, sqlSumDuration_getD]

/-- The setting key used by the Claim C8 witness. -/
def c8key : String := "work_duration"

/-- A small concrete database for the Claim C8 witness: one interval with
id 1, one setting under the key "theme". -/
def c8db : Database where
  tasks := []
  pomodoros := [{ id := 1
                  taskId := none
                  duration := 60
                  startTime := ⟨0, 0⟩
                  endTime := ⟨0, 0⟩ }]
  settings := [(("theme"), ("dark"))]
  nextTaskId := 1
  nextPomodoroId := 2

/-- Claim C8: deleting a pomodoro id that matches no row leaves the store
unchanged and raises nothing (deletion is also idempotent in general), and
`get_setting` on an absent key returns the caller-supplied default. -/
theorem c8_missing_row_spec (db : Database) (pomodoroId : Nat) (key : String)
    (dflt : Option String)
    (hid : ∀ row ∈ db.pomodoros, row.id ≠ pomodoroId)
    (hkey : ∀ kv ∈ db.settings, kv.1 ≠ key) :
    delete_pomodoro db pomodoroId = db ∧
    delete_pomodoro (delete_pomodoro db pomodoroId) pomodoroId =
      delete_pomodoro db pomodoroId ∧
    get_setting db key dflt = dflt := by
  have h1 : db.pomodoros.filter (fun row => row.id != pomodoroId) =
      db.pomodoros := by
    apply List.filter_eq_self.mpr
    intro row hrow
    simp [hid row hrow]
  refine ⟨?_, ?_, ?_⟩
  · simp [delete_pomodoro, h1]
  · simp [delete_pomodoro, List.filter_filter]
  · have h2 : db.settings.find? (fun kv => kv.1 == key) = none := by
      apply List.find?_eq_none.mpr
      intro kv hkv
      simp [hkey kv hkv]
    simp [get_setting, h2]

/-- Claim C8 witness: on `c8db`, deleting the absent id 5 changes nothing
and reading the absent key returns the supplied default. -/
theorem c8_missing_row_spec_witness :
    delete_pomodoro c8db 5 = c8db ∧
    get_setting c8db c8key (some ("25")) = some ("25") := by
  have h := c8_missing_row_spec c8db 5 c8key (some ("25"))
    (by decide) (by decide)
  exact ⟨h.1, h.2.2⟩

end PomodoroTodo
